import Mathlib

/-!
Shallow embedding of `custom_components/xiaomi_miio_opple_light/light.py`.

Python runtime values that flow through the cached entity fields and device
replies are modelled by the inductive `PyVal` (the subset of Python values
this platform actually handles: `None`, booleans, integers, strings).
Arithmetic on a non-numeric value raises `TypeError`; division by zero raises
`ZeroDivisionError`; both are modelled by `PyError` and `Except`.
Real-number division followed by `math.ceil` / `math.floor` is modelled
exactly over `ℚ` with `Int.ceil` / `Int.floor` (the float quantities involved
are far below the precision where rounding could cross an integer boundary).
-/

inductive PyVal where
  | none
  | bool (b : Bool)
  | int (n : Int)
  | str (s : String)
deriving DecidableEq, Repr

/-- Numeric coercion used by Python arithmetic: `bool` counts as 0/1, `int`
is itself, `None` and strings are non-numeric (arithmetic raises
`TypeError`). -/
def pyNumeric : PyVal → Option Int
  | PyVal.bool b => some (if b then 1 else 0)
  | PyVal.int n => some n
  | _ => Option.none

/-- Python truthiness, as used by `if not self._state` / `if self._state`. -/
def pyTruthy : PyVal → Bool
  | PyVal.none => false
  | PyVal.bool b => b
  | PyVal.int n => n != 0
  | PyVal.str s => s != ""

/-- Python exceptions relevant to this module. -/
inductive PyError where
  | typeError
  | zeroDivisionError
deriving DecidableEq, Repr

/-- Cached entity state plus the configuration captured by
`OppleLight.__init__` (lines 119-130 of light.py): `_state`, `_brightness`
and `_color_temp` start as `None` and are overwritten with raw device-reply
values, so they are `PyVal`; the four configured bounds are validated
integers. -/
structure OppleLight where
  _state : PyVal
  _brightness : PyVal
  _color_temp : PyVal
  _min_brightness : Int
  _max_brightness : Int
  _min_color_temperature : Int
  _max_color_temperature : Int
deriving DecidableEq, Repr

/-- Feature bit constants from `homeassistant.components.light`. -/
def SUPPORT_BRIGHTNESS : Nat := 1

def SUPPORT_COLOR_TEMP : Nat := 2

def SUPPORT_COLOR : Nat := 16

def DEFAULT_SUPPORTED_FEATURES : Nat := SUPPORT_BRIGHTNESS ||| SUPPORT_COLOR_TEMP

/-- Property `supported_features` (lines 212-214): always the constant. -/
def OppleLight.supported_features (_l : OppleLight) : Nat := DEFAULT_SUPPORTED_FEATURES

/-- Static method `translate_mired` (lines 241-246):
`floor(1000000 / num)`, with `TypeError` / `ValueError` /
`ZeroDivisionError` caught and turned into the sentinel `153`. -/
def OppleLight.translate_mired (num : PyVal) : Int :=
  match pyNumeric num with
  | Option.none => 153
  | some n => if n = 0 then 153 else ⌊(1000000 : ℚ) / (n : ℚ)⌋

/-- Property `brightness` (lines 225-227):
`ceil((self._brightness - self._min_brightness)*(255-1)/(self._max_brightness - self._min_brightness)+1)`.
A `None` (or otherwise non-numeric) cached value raises `TypeError` at the
subtraction; equal configured bounds raise `ZeroDivisionError`; nothing is
caught here. -/
def OppleLight.brightness (l : OppleLight) : Except PyError Int :=
  match pyNumeric l._brightness with
  | Option.none => Except.error PyError.typeError
  | some b =>
      if l._max_brightness - l._min_brightness = 0 then
        Except.error PyError.zeroDivisionError
      else
        Except.ok
          ⌈((b : ℚ) - (l._min_brightness : ℚ)) * ((255 : ℚ) - 1) /
              ((l._max_brightness : ℚ) - (l._min_brightness : ℚ)) + 1⌉

/-- Property `color_temp` (lines 229-231). -/
def OppleLight.color_temp (l : OppleLight) : Int :=
  OppleLight.translate_mired l._color_temp

/-- Property `min_mireds` (lines 233-235). -/
def OppleLight.min_mireds (l : OppleLight) : Int :=
  OppleLight.translate_mired (PyVal.int l._max_color_temperature)

/-- Property `max_mireds` (lines 237-239). -/
def OppleLight.max_mireds (l : OppleLight) : Int :=
  OppleLight.translate_mired (PyVal.int l._min_color_temperature)

/-- The device proxy (`miio.Device.raw_command`) is modelled as a function
from a method name and parameters to either an exception (`Except.error`,
covering `DeviceException` and any other raised error) or a raw reply
list. -/
abbrev DeviceFun := String → List PyVal → Except Unit (List PyVal)

/-- Method `change_state` (lines 158-168): runs the raw command inside
`try`; when the reply's first element is not the string `"ok"` it returns
`False`; on `"ok"` it returns `True`; any exception (device failure, or an
`IndexError` from an empty reply) is caught and the method falls off the
end, returning Python `None`. -/
def OppleLight.change_state (dev : DeviceFun) (method : String)
    (params : List PyVal) : Option Bool :=
  match dev method params with
  | Except.error _ => Option.none
  | Except.ok res =>
      match res with
      | [] => Option.none
      | r :: _ => if r ≠ PyVal.str "ok" then some false else some true

/-- The keyword arguments of `async_turn_on` that this platform reads
(`ATTR_BRIGHTNESS`, `ATTR_COLOR_TEMP`). -/
structure Kwargs where
  brightness : Option Int
  color_temp : Option Int
deriving DecidableEq, Repr

/-- Method `async_turn_on` (lines 170-192).  Returns the resulting cached
state together with the list of commands issued through `change_state`
(method name and parameters, in order). -/
def OppleLight.async_turn_on (dev : DeviceFun) (l : OppleLight)
    (kwargs : Kwargs) : OppleLight × List (String × List PyVal) :=
  let step1 : OppleLight × List (String × List PyVal) :=
    if pyTruthy l._state then (l, [])
    else
      let r := OppleLight.change_state dev "SetState" [PyVal.bool true]
      (if r = some true then { l with _state := PyVal.bool true } else l,
       [("SetState", [PyVal.bool true])])
  let l1 := step1.1
  let step2 : OppleLight × List (String × List PyVal) :=
    if OppleLight.supported_features l1 &&& SUPPORT_BRIGHTNESS = 0 then (l1, [])
    else
      match kwargs.brightness with
      | Option.none => (l1, [])
      | some v =>
          let percent_brightness : Int :=
            ⌈((v : ℚ) - 1) * ((l1._max_brightness : ℚ) - (l1._min_brightness : ℚ)) /
                ((255 : ℚ) - 1) + (l1._min_brightness : ℚ)⌉
          let r := OppleLight.change_state dev "SetBrightness" [PyVal.int percent_brightness]
          (if r = some true then { l1 with _brightness := PyVal.int v } else l1,
           [("SetBrightness", [PyVal.int percent_brightness])])
  let l2 := step2.1
  let step3 : OppleLight × List (String × List PyVal) :=
    if OppleLight.supported_features l2 &&& SUPPORT_COLOR_TEMP = 0 then (l2, [])
    else
      match kwargs.color_temp with
      | Option.none => (l2, [])
      | some mired =>
          let ct := OppleLight.translate_mired (PyVal.int mired)
          let r := OppleLight.change_state dev "SetColorTemperature" [PyVal.int ct]
          (if r = some true then { l2 with _color_temp := PyVal.int ct } else l2,
           [("SetColorTemperature", [PyVal.int ct])])
  (step3.1, step1.2 ++ step2.2 ++ step3.2)

/-- Method `async_turn_off` (lines 194-200). -/
def OppleLight.async_turn_off (dev : DeviceFun) (l : OppleLight) :
    OppleLight × List (String × List PyVal) :=
  if pyTruthy l._state then
    let r := OppleLight.change_state dev "SetState" [PyVal.bool false]
    (if r = some true then { l with _state := PyVal.bool false } else l,
     [("SetState", [PyVal.bool false])])
  else (l, [])

/-- Method `async_update` (lines 148-156): the whole body is inside
`try/except Exception`.  Assignments run in source order
(`_state = BaseInfo[0]`, then `_brightness = BaseInfo[2]`, then
`_color_temp = BaseInfo[1]`); an `IndexError` aborts the remaining
assignments but keeps the ones already executed. -/
def OppleLight.async_update (reply : Except Unit (List PyVal))
    (l : OppleLight) : OppleLight :=
  match reply with
  | Except.error _ => l
  | Except.ok BaseInfo =>
      match BaseInfo.get? 0 with
      | Option.none => l
      | some v0 =>
          let l1 := { l with _state := v0 }
          match BaseInfo.get? 2 with
          | Option.none => l1
          | some v2 =>
              let l2 := { l1 with _brightness := v2 }
              match BaseInfo.get? 1 with
              | Option.none => l2
              | some v1 => { l2 with _color_temp := v1 }

/-- Raw configuration input for the platform schema: each recognized key is
present or absent. -/
structure RawConfig where
  name : Option String
  host : Option String
  token : Option String
  scan_interval : Option Int
  min_brightness : Option Int
  max_brightness : Option Int
  min_color_temperature : Option Int
  max_color_temperature : Option Int
deriving DecidableEq, Repr

/-- A configuration accepted by the schema. -/
structure Config where
  name : String
  host : String
  token : String
  scan_interval : Int
  min_brightness : Int
  max_brightness : Int
  min_color_temperature : Int
  max_color_temperature : Int
deriving DecidableEq, Repr

/-- The external validator `cv.positive_int` (accepts any integer `≥ 0`). -/
def cv_positive_int (n : Int) : Option Int :=
  if 0 ≤ n then some n else Option.none

/-- `PLATFORM_SCHEMA` (lines 53-63): `name`, `host`, `token` are required
strings; `scan_interval` defaults to 10 seconds and is clamped to at least
5; the four bound options default to 7 / 100 / 3000 / 5700 and must each
pass `cv.positive_int`.  No cross-field relation (in particular no
`min < max` relation) is checked. -/
def PLATFORM_SCHEMA (c : RawConfig) : Option Config :=
  match c.name, c.host, c.token with
  | some name, some host, some token =>
      let si := max (c.scan_interval.getD 10) 5
      match cv_positive_int (c.min_brightness.getD 7),
            cv_positive_int (c.max_brightness.getD 100),
            cv_positive_int (c.min_color_temperature.getD 3000),
            cv_positive_int (c.max_color_temperature.getD 5700) with
      | some minb, some maxb, some minct, some maxct =>
          some { name := name, host := host, token := token, scan_interval := si,
                 min_brightness := minb, max_brightness := maxb,
                 min_color_temperature := minct, max_color_temperature := maxct }
      | _, _, _, _ => Option.none
  | _, _, _ => Option.none

/-- The entity state built by `async_setup_platform` + `__init__` from an
accepted configuration: cached fields start as `None`. -/
def initialLight (cfg : Config) : OppleLight :=
  { _state := PyVal.none, _brightness := PyVal.none, _color_temp := PyVal.none,
    _min_brightness := cfg.min_brightness, _max_brightness := cfg.max_brightness,
    _min_color_temperature := cfg.min_color_temperature,
    _max_color_temperature := cfg.max_color_temperature }

/-- The brightness encode formula of the specification:
`percent = ceil((host_value - 1) * (max_b - min_b) / 254 + min_b)`. -/
def encodeBrightness (minb maxb v : Int) : Int :=
  ⌈((v : ℚ) - 1) * ((maxb : ℚ) - (minb : ℚ)) / 254 + (minb : ℚ)⌉

/-- The brightness decode formula of the specification:
`host_value = ceil((device_value - min_b) * 254 / (max_b - min_b) + 1)`. -/
def decodeBrightness (minb maxb d : Int) : Int :=
  ⌈((d : ℚ) - (minb : ℚ)) * 254 / ((maxb : ℚ) - (minb : ℚ)) + 1⌉

/-- A device stub whose replies never start with `"ok"`. -/
def devNotOk : DeviceFun := fun _ _ => Except.ok [PyVal.str "error"]

/-- A sample synchronized entity state with the default configured bounds. -/
def sampleLight : OppleLight :=
  { _state := PyVal.bool false, _brightness := PyVal.int 50,
    _color_temp := PyVal.int 4000, _min_brightness := 7, _max_brightness := 100,
    _min_color_temperature := 3000, _max_color_temperature := 5700 }

/-- The entity state right after `__init__` with the default configuration,
before any successful state fetch. -/
def freshLight : OppleLight :=
  initialLight { name := "light", host := "host", token := "token",
                 scan_interval := 10, min_brightness := 7, max_brightness := 100,
                 min_color_temperature := 3000, max_color_temperature := 5700 }

/-- Floor of an integer quotient over `ℚ` is integer (Euclidean) division,
for a positive divisor. -/
lemma floor_intCast_div (p q : Int) (hq : 0 < q) : ⌊(p : ℚ) / (q : ℚ)⌋ = p / q := by
  have h1 : ((q.toNat : ℕ) : ℚ) = (q : ℚ) := by
    rw [← Int.cast_natCast]
    exact congrArg _ (Int.toNat_of_nonneg hq.le)
  rw [← h1, Rat.floor_intCast_div_natCast p q.toNat, Int.toNat_of_nonneg hq.le]

/-- Ceiling of an integer quotient over `ℚ`, for a positive divisor. -/
lemma ceil_intCast_div (p q : Int) (hq : 0 < q) :
    ⌈(p : ℚ) / (q : ℚ)⌉ = -(-p / q) := by
  have h1 : ((-p : ℤ) : ℚ) / (q : ℚ) = -((p : ℚ) / (q : ℚ)) := by push_cast; ring
  have h2 := floor_intCast_div (-p) q hq
  rw [h1, Int.floor_neg] at h2
  omega

/-- Executable form of the encode formula. -/
lemma encodeBrightness_eval (minb maxb v : Int) :
    encodeBrightness minb maxb v = -(-((v - 1) * (maxb - minb)) / 254) + minb := by
  unfold encodeBrightness
  have h1 : ((v : ℚ) - 1) * ((maxb : ℚ) - (minb : ℚ)) / 254 + (minb : ℚ)
      = (((v - 1) * (maxb - minb) : ℤ) : ℚ) / ((254 : ℤ) : ℚ) + ((minb : ℤ) : ℚ) := by
    push_cast; ring
  rw [h1, Int.ceil_add_int, ceil_intCast_div _ _ (by norm_num)]

/-- Executable form of the decode formula (positive brightness span). -/
lemma decodeBrightness_eval (minb maxb d : Int) (h : minb < maxb) :
    decodeBrightness minb maxb d = -(-((d - minb) * 254) / (maxb - minb)) + 1 := by
  unfold decodeBrightness
  have h1 : ((d : ℚ) - (minb : ℚ)) * 254 / ((maxb : ℚ) - (minb : ℚ)) + 1
      = (((d - minb) * 254 : ℤ) : ℚ) / ((maxb - minb : ℤ) : ℚ) + ((1 : ℤ) : ℚ) := by
    push_cast; ring
  rw [h1, Int.ceil_add_int, ceil_intCast_div _ _ (by omega)]

/-- Executable form of `translate_mired` on a positive integer. -/
lemma translate_mired_pos (n : Int) (h : 0 < n) :
    OppleLight.translate_mired (PyVal.int n) = 1000000 / n := by
  unfold OppleLight.translate_mired pyNumeric
  rw [show ((1000000 : ℚ)) = ((1000000 : ℤ) : ℚ) by norm_cast]
  simp only [if_neg (by omega : ¬ n = 0)]
  exact floor_intCast_div 1000000 n h

/-- Normal form of the encode formula: inner ceiling plus the configured
minimum. -/
lemma encodeBrightness_shape (minb maxb v : Int) :
    encodeBrightness minb maxb v
      = ⌈(((v - 1) * (maxb - minb) : ℤ) : ℚ) / ((254 : ℤ) : ℚ)⌉ + minb := by
  unfold encodeBrightness
  have h1 : ((v : ℚ) - 1) * ((maxb : ℚ) - (minb : ℚ)) / 254 + (minb : ℚ)
      = (((v - 1) * (maxb - minb) : ℤ) : ℚ) / ((254 : ℤ) : ℚ) + ((minb : ℤ) : ℚ) := by
    push_cast; ring
  rw [h1, Int.ceil_add_int]

/-- Normal form of the decode formula: inner ceiling plus one. -/
lemma decodeBrightness_shape (minb maxb d : Int) :
    decodeBrightness minb maxb d
      = ⌈(((d - minb) * 254 : ℤ) : ℚ) / ((maxb - minb : ℤ) : ℚ)⌉ + 1 := by
  unfold decodeBrightness
  have h1 : ((d : ℚ) - (minb : ℚ)) * 254 / ((maxb : ℚ) - (minb : ℚ)) + 1
      = (((d - minb) * 254 : ℤ) : ℚ) / ((maxb - minb : ℤ) : ℚ) + ((1 : ℤ) : ℚ) := by
    push_cast; ring
  rw [h1, Int.ceil_add_int]

/-- Core round-trip estimate: dividing `k * a` by `b` with ceiling, then
multiplying the result by `b` and dividing by `a` with ceiling, lands in
`[k, k + 1]` whenever `0 < b ≤ a`. -/
lemma ceil_div_roundtrip (a b k : Int) (ha : 0 < a) (hb : 0 < b) (hba : b ≤ a) :
    k ≤ ⌈((⌈((k * a : ℤ) : ℚ) / ((b : ℤ) : ℚ)⌉ : ℤ) : ℚ) * ((b : ℤ) : ℚ) / ((a : ℤ) : ℚ)⌉ ∧
    ⌈((⌈((k * a : ℤ) : ℚ) / ((b : ℤ) : ℚ)⌉ : ℤ) : ℚ) * ((b : ℤ) : ℚ) / ((a : ℤ) : ℚ)⌉ ≤ k + 1 := by
  have haQ : (0 : ℚ) < (a : ℚ) := by exact_mod_cast ha
  have hbQ : (0 : ℚ) < (b : ℚ) := by exact_mod_cast hb
  have hbaQ : ((b : ℤ) : ℚ) ≤ ((a : ℤ) : ℚ) := by exact_mod_cast hba
  set m : ℤ := ⌈((k * a : ℤ) : ℚ) / ((b : ℤ) : ℚ)⌉ with hm
  have h1 : ((k * a : ℤ) : ℚ) / ((b : ℤ) : ℚ) ≤ (m : ℚ) := Int.le_ceil _
  have h2 : ((k * a : ℤ) : ℚ) ≤ (m : ℚ) * (b : ℚ) := (div_le_iff₀ hbQ).mp h1
  constructor
  · have h3 : (k : ℚ) ≤ (m : ℚ) * ((b : ℤ) : ℚ) / ((a : ℤ) : ℚ) := by
      rw [le_div_iff₀ haQ]
      calc (k : ℚ) * (a : ℚ) = ((k * a : ℤ) : ℚ) := by push_cast; ring
        _ ≤ (m : ℚ) * (b : ℚ) := h2
    calc k = ⌈(k : ℚ)⌉ := (Int.ceil_intCast k).symm
      _ ≤ _ := Int.ceil_mono h3
  · have h4 : (m : ℚ) < ((k * a : ℤ) : ℚ) / ((b : ℤ) : ℚ) + 1 := Int.ceil_lt_add_one _
    have h6 : ((m : ℚ) - 1) * (b : ℚ) < ((k * a : ℤ) : ℚ) := by
      rw [← lt_div_iff₀ hbQ]
      linarith
    rw [sub_mul, one_mul] at h6
    have h7 : (m : ℚ) * ((b : ℤ) : ℚ) / ((a : ℤ) : ℚ) < (k : ℚ) + 1 := by
      rw [div_lt_iff₀ haQ]
      have h8 : ((k * a : ℤ) : ℚ) = (k : ℚ) * (a : ℚ) := by push_cast; ring
      rw [h8] at h6
      nlinarith
    apply Int.ceil_le.mpr
    push_cast
    linarith

/-- When every reply of the device fails to start with `"ok"`,
`change_state` never reports success. -/
lemma change_state_not_ok (dev : DeviceFun) (m : String) (p : List PyVal)
    (h : ∀ res, dev m p = Except.ok res → res.head? ≠ some (PyVal.str "ok")) :
    OppleLight.change_state dev m p ≠ some true := by
  unfold OppleLight.change_state
  cases hd : dev m p with
  | error e => simp
  | ok res =>
      cases res with
      | nil => simp
      | cons r rest =>
          have hr := h _ hd
          simp only [List.head?, ne_eq, Option.some.injEq] at hr
          simp [if_pos, hr]

/-- C4: `translate_mired` applied to `0`, to `None`, or to any non-numeric
input (here: any string) returns exactly the sentinel value `153`. -/
theorem c4_translate_mired_sentinel :
    OppleLight.translate_mired PyVal.none = 153 ∧
    OppleLight.translate_mired (PyVal.int 0) = 153 ∧
    (∀ s : String, OppleLight.translate_mired (PyVal.str s) = 153) :=
  ⟨rfl, by decide, fun _ => rfl⟩

/-- C5: for every numeric, nonzero input value, `translate_mired` computes
`floor(1000000 / value)`; in particular `translate_mired 1000000 = 1` and
`translate_mired 200 = 5000`. -/
theorem c5_translate_mired_formula (p : PyVal) (n : Int)
    (hn : pyNumeric p = some n) (h0 : n ≠ 0) :
    OppleLight.translate_mired p = ⌊(1000000 : ℚ) / (n : ℚ)⌋ ∧
    OppleLight.translate_mired (PyVal.int 1000000) = 1 ∧
    OppleLight.translate_mired (PyVal.int 200) = 5000 := by
  refine ⟨?_, ?_, ?_⟩
  · unfold OppleLight.translate_mired
    rw [hn]
    show (if n = 0 then (153 : Int) else ⌊(1000000 : ℚ) / (n : ℚ)⌋) = _
    rw [if_neg h0]
  · rw [translate_mired_pos _ (by norm_num)]; decide
  · rw [translate_mired_pos _ (by norm_num)]; decide

/-- Witness for C5 at the numeric input `200`. -/
theorem c5_translate_mired_formula_witness :
    pyNumeric (PyVal.int 200) = some 200 ∧ (200 : Int) ≠ 0 ∧
    (OppleLight.translate_mired (PyVal.int 200) = ⌊(1000000 : ℚ) / ((200 : Int) : ℚ)⌋ ∧
      OppleLight.translate_mired (PyVal.int 1000000) = 1 ∧
      OppleLight.translate_mired (PyVal.int 200) = 5000) :=
  ⟨rfl, by decide, c5_translate_mired_formula (PyVal.int 200) 200 rfl (by decide)⟩

/-- C8: for every integer cached device brightness value and every
configuration with `min_brightness < max_brightness`, the reported
`brightness` property succeeds and equals
`ceil((device_value - min_b) * 254 / (max_b - min_b) + 1)`. -/
theorem c8_brightness_property (l : OppleLight) (b : Int)
    (hb : l._brightness = PyVal.int b)
    (h : l._min_brightness < l._max_brightness) :
    OppleLight.brightness l
      = Except.ok (decodeBrightness l._min_brightness l._max_brightness b) := by
  unfold OppleLight.brightness decodeBrightness
  rw [hb]
  simp only [pyNumeric]
  rw [if_neg (by omega)]
  norm_num

/-- Witness for C8 on `sampleLight` (cached raw value 50, bounds 7 and
100). -/
theorem c8_brightness_property_witness :
    sampleLight._brightness = PyVal.int 50 ∧
    sampleLight._min_brightness < sampleLight._max_brightness ∧
    OppleLight.brightness sampleLight
      = Except.ok (decodeBrightness sampleLight._min_brightness
          sampleLight._max_brightness 50) :=
  ⟨rfl, by decide, c8_brightness_property sampleLight 50 rfl (by decide)⟩

/-- C9: before any successful state fetch (cached raw brightness and color
temperature still `None`), reading the `brightness` property raises
`TypeError`, while reading `color_temp` in the same situation returns the
sentinel `153`. -/
theorem c9_uninitialized_properties (l : OppleLight)
    (hb : l._brightness = PyVal.none) (hc : l._color_temp = PyVal.none) :
    OppleLight.brightness l = Except.error PyError.typeError ∧
    OppleLight.color_temp l = 153 := by
  constructor
  · unfold OppleLight.brightness
    rw [hb]
    rfl
  · unfold OppleLight.color_temp
    rw [hc]
    rfl

/-- Witness for C9 on the freshly initialized entity. -/
theorem c9_uninitialized_properties_witness :
    freshLight._brightness = PyVal.none ∧ freshLight._color_temp = PyVal.none ∧
    (OppleLight.brightness freshLight = Except.error PyError.typeError ∧
      OppleLight.color_temp freshLight = 153) :=
  ⟨rfl, rfl, c9_uninitialized_properties freshLight rfl rfl⟩

/-- C6: the reported `min_mireds` property equals
`translate_mired(max_color_temperature)` and `max_mireds` equals
`translate_mired(min_color_temperature)`; when
`0 < min_color_temperature ≤ max_color_temperature` the exposed mired
bounds satisfy `min_mireds ≤ max_mireds`, inverted relative to the raw
bounds. -/
theorem c6_mired_bounds (l : OppleLight)
    (h1 : 0 < l._min_color_temperature)
    (h2 : l._min_color_temperature ≤ l._max_color_temperature) :
    OppleLight.min_mireds l
        = OppleLight.translate_mired (PyVal.int l._max_color_temperature) ∧
    OppleLight.max_mireds l
        = OppleLight.translate_mired (PyVal.int l._min_color_temperature) ∧
    OppleLight.min_mireds l ≤ OppleLight.max_mireds l := by
  refine ⟨rfl, rfl, ?_⟩
  have hmax : 0 < l._max_color_temperature := lt_of_lt_of_le h1 h2
  have e1 : OppleLight.min_mireds l
      = ⌊(1000000 : ℚ) / (l._max_color_temperature : ℚ)⌋ := by
    unfold OppleLight.min_mireds OppleLight.translate_mired
    show (if l._max_color_temperature = 0 then (153 : Int)
      else ⌊(1000000 : ℚ) / (l._max_color_temperature : ℚ)⌋) = _
    rw [if_neg (by omega)]
  have e2 : OppleLight.max_mireds l
      = ⌊(1000000 : ℚ) / (l._min_color_temperature : ℚ)⌋ := by
    unfold OppleLight.max_mireds OppleLight.translate_mired
    show (if l._min_color_temperature = 0 then (153 : Int)
      else ⌊(1000000 : ℚ) / (l._min_color_temperature : ℚ)⌋) = _
    rw [if_neg (by omega)]
  rw [e1, e2]
  apply Int.floor_mono
  have hminQ : (0 : ℚ) < (l._min_color_temperature : ℚ) := by exact_mod_cast h1
  have hmaxQ : (0 : ℚ) < (l._max_color_temperature : ℚ) := by exact_mod_cast hmax
  have h2Q : (l._min_color_temperature : ℚ) ≤ (l._max_color_temperature : ℚ) := by
    exact_mod_cast h2
  exact (div_le_div_iff_of_pos_left (by norm_num) hmaxQ hminQ).mpr h2Q

/-- Witness for C6 at the default color bounds 3000 and 5700. -/
theorem c6_mired_bounds_witness :
    0 < sampleLight._min_color_temperature ∧
    sampleLight._min_color_temperature ≤ sampleLight._max_color_temperature ∧
    (OppleLight.min_mireds sampleLight
        = OppleLight.translate_mired (PyVal.int sampleLight._max_color_temperature) ∧
      OppleLight.max_mireds sampleLight
        = OppleLight.translate_mired (PyVal.int sampleLight._min_color_temperature) ∧
      OppleLight.min_mireds sampleLight ≤ OppleLight.max_mireds sampleLight) :=
  ⟨by decide, by decide, c6_mired_bounds sampleLight (by decide) (by decide)⟩

/-- The percent expression written in `async_turn_on` (with the literal
`255 - 1` denominator, and the integer summand pulled out of the ceiling)
is the specification encode formula. -/
lemma percent_eq_encode (minb maxb v : Int) :
    encodeBrightness minb maxb v
      = ⌈((v : ℚ) - 1) * ((maxb : ℚ) - (minb : ℚ)) / ((255 : ℚ) - 1)⌉ + minb := by
  rw [encodeBrightness_shape]
  have h : (((v - 1) * (maxb - minb) : ℤ) : ℚ) / ((254 : ℤ) : ℚ)
      = ((v : ℚ) - 1) * ((maxb : ℚ) - (minb : ℚ)) / ((255 : ℚ) - 1) := by
    push_cast
    norm_num
  rw [h]

/-- C3: when every device reply fails to start with `"ok"`, both command
handlers leave the cached `_state`, `_brightness` and `_color_temp`
unchanged (and, the device call being wrapped in `change_state`'s
`try/except`, no exception propagates: both handlers are total). -/
theorem c3_failed_command_state_unchanged (dev : DeviceFun) (l : OppleLight)
    (kwargs : Kwargs)
    (h : ∀ m p res, dev m p = Except.ok res → res.head? ≠ some (PyVal.str "ok")) :
    (OppleLight.async_turn_on dev l kwargs).1 = l ∧
    (OppleLight.async_turn_off dev l).1 = l := by
  have hcs : ∀ m p, (OppleLight.change_state dev m p = some true) = False := fun m p =>
    eq_false (change_state_not_ok dev m p (fun res hr => h m p res hr))
  obtain ⟨kb, kc⟩ := kwargs
  constructor
  · cases kb <;> cases kc <;> by_cases hst : pyTruthy l._state <;>
      simp [OppleLight.async_turn_on, hst, hcs, OppleLight.supported_features,
        DEFAULT_SUPPORTED_FEATURES, SUPPORT_BRIGHTNESS, SUPPORT_COLOR_TEMP]
  · by_cases hst : pyTruthy l._state <;>
      simp [OppleLight.async_turn_off, hst, hcs]

/-- Witness for C3: a device stub that always answers `["error"]`. -/
theorem c3_failed_command_state_unchanged_witness :
    (∀ m p res, devNotOk m p = Except.ok res → res.head? ≠ some (PyVal.str "ok")) ∧
    ((OppleLight.async_turn_on devNotOk sampleLight
        { brightness := some 128, color_temp := some 300 }).1 = sampleLight ∧
      (OppleLight.async_turn_off devNotOk sampleLight).1 = sampleLight) := by
  have h : ∀ m p res, devNotOk m p = Except.ok res →
      res.head? ≠ some (PyVal.str "ok") := by
    intro m p res hr
    have hres : res = [PyVal.str "error"] := by
      simpa [devNotOk] using hr.symm
    subst hres
    decide
  exact ⟨h, c3_failed_command_state_unchanged devNotOk sampleLight
    { brightness := some 128, color_temp := some 300 } h⟩

/-- C7: when `async_turn_on` is called with a brightness keyword argument
`v`, the device command issued is `SetBrightness` with exactly
`ceil((v - 1) * (max_b - min_b) / 254 + min_b)`; with bounds 7 and 100,
host value 255 encodes to 100 and host value 1 encodes to 7. -/
theorem c7_turn_on_sends_encoded_brightness (dev : DeviceFun) (l : OppleLight)
    (kwargs : Kwargs) (v : Int) (hv : kwargs.brightness = some v) :
    ("SetBrightness",
        [PyVal.int (encodeBrightness l._min_brightness l._max_brightness v)])
      ∈ (OppleLight.async_turn_on dev l kwargs).2 ∧
    encodeBrightness 7 100 255 = 100 ∧ encodeBrightness 7 100 1 = 7 := by
  refine ⟨?_, ?_, ?_⟩
  · obtain ⟨kb, kc⟩ := kwargs
    have hkb : kb = some v := hv
    subst hkb
    by_cases hst : pyTruthy l._state <;>
    by_cases hr : OppleLight.change_state dev "SetState" [PyVal.bool true] = some true <;>
      simp [OppleLight.async_turn_on, hst, hr, OppleLight.supported_features,
        DEFAULT_SUPPORTED_FEATURES, SUPPORT_BRIGHTNESS, SUPPORT_COLOR_TEMP,
        percent_eq_encode, List.mem_append]
  · rw [encodeBrightness_eval]; decide
  · rw [encodeBrightness_eval]; decide

/-- Witness for C7 at host brightness 128 on `sampleLight`. -/
theorem c7_turn_on_sends_encoded_brightness_witness :
    ({ brightness := some 128, color_temp := Option.none } : Kwargs).brightness
        = some 128 ∧
    (("SetBrightness",
        [PyVal.int (encodeBrightness sampleLight._min_brightness
          sampleLight._max_brightness 128)])
      ∈ (OppleLight.async_turn_on devNotOk sampleLight
          { brightness := some 128, color_temp := Option.none }).2 ∧
      encodeBrightness 7 100 255 = 100 ∧ encodeBrightness 7 100 1 = 7) :=
  ⟨rfl, c7_turn_on_sends_encoded_brightness devNotOk sampleLight
    { brightness := some 128, color_temp := Option.none } 128 rfl⟩

/-- Counterexample to C10 as stated: on a two-element reply
`[power, color]` the cached color temperature is NOT updated, because the
failing index-2 access (`_brightness = BaseInfo[2]`) happens before
`_color_temp = BaseInfo[1]` is executed; only the power state is
updated. -/
theorem c10_partial_update_counterexample :
    ([PyVal.bool true, PyVal.int 2500] : List PyVal).length < 3 ∧
    (OppleLight.async_update (Except.ok [PyVal.bool true, PyVal.int 2500])
        sampleLight)._state = PyVal.bool true ∧
    (OppleLight.async_update (Except.ok [PyVal.bool true, PyVal.int 2500])
        sampleLight)._color_temp = PyVal.int 4000 ∧
    PyVal.int 4000 ≠ PyVal.int 2500 := by
  decide

/-- C10 (amended): a failed state fetch is not atomic, but only the power
state can be partially applied: on a reply with fewer than three elements,
`_brightness` and `_color_temp` are left unchanged (the index-2 access
raises before the color assignment is reached), `_state` receives the first
element when one exists, and a failure of the device call itself leaves all
three fields unchanged. -/
theorem c10_short_reply_partial_update (st : OppleLight) (l : List PyVal)
    (h : l.length < 3) :
    (OppleLight.async_update (Except.ok l) st)._brightness = st._brightness ∧
    (OppleLight.async_update (Except.ok l) st)._color_temp = st._color_temp ∧
    (OppleLight.async_update (Except.ok l) st)._state = l.head?.getD st._state ∧
    (∀ e : Unit, OppleLight.async_update (Except.error e) st = st) := by
  match l with
  | [] => exact ⟨rfl, rfl, rfl, fun _ => rfl⟩
  | [a] => exact ⟨rfl, rfl, rfl, fun _ => rfl⟩
  | [a, b] => exact ⟨rfl, rfl, rfl, fun _ => rfl⟩
  | a :: b :: c :: t =>
      exfalso
      simp only [List.length_cons] at h
      omega

/-- Witness for the amended C10 on a one-element reply. -/
theorem c10_short_reply_partial_update_witness :
    ([PyVal.bool false] : List PyVal).length < 3 ∧
    ((OppleLight.async_update (Except.ok [PyVal.bool false]) sampleLight)._brightness
        = sampleLight._brightness ∧
      (OppleLight.async_update (Except.ok [PyVal.bool false]) sampleLight)._color_temp
        = sampleLight._color_temp ∧
      (OppleLight.async_update (Except.ok [PyVal.bool false]) sampleLight)._state
        = ([PyVal.bool false] : List PyVal).head?.getD sampleLight._state ∧
      (∀ e : Unit, OppleLight.async_update (Except.error e) sampleLight = sampleLight)) :=
  ⟨by decide, c10_short_reply_partial_update sampleLight [PyVal.bool false] (by decide)⟩

/-- Counterexample to C1 as stated: with the default bounds
`min_brightness = 7 < 100 = max_brightness`, the host value `2` (inside
`[1, 255]`) encodes to `8` and decodes back to `4`, a drift of 2, outside
±1. -/
theorem c1_roundtrip_counterexample :
    (7 : Int) < 100 ∧ (1 : Int) ≤ 2 ∧ (2 : Int) ≤ 255 ∧
    decodeBrightness 7 100 (encodeBrightness 7 100 2) = 4 ∧
    (decodeBrightness 7 100 (encodeBrightness 7 100 2) - 2).natAbs = 2 := by
  have he : encodeBrightness 7 100 2 = 8 := by
    rw [encodeBrightness_eval]; decide
  have hd : decodeBrightness 7 100 8 = 4 := by
    rw [decodeBrightness_eval _ _ _ (by norm_num)]; decide
  refine ⟨by norm_num, by norm_num, by norm_num, ?_, ?_⟩
  · rw [he, hd]
  · rw [he, hd]
    decide

/-- C1 (amended): with `min_b < max_b`, round-tripping a device value
`d ∈ [min_b, max_b]` through decode then encode lands in `[d, d + 1]`
provided the device span `max_b - min_b` is at most 254, and round-tripping
a host value `v ∈ [1, 255]` through encode then decode lands in
`[v, v + 1]` provided the span is at least 254; outside those span
conditions the drift can exceed 1 (see the counterexample). -/
theorem c1_brightness_roundtrip_amended (minb maxb : Int) (h : minb < maxb) :
    (∀ d : Int, minb ≤ d → d ≤ maxb → maxb - minb ≤ 254 →
      d ≤ encodeBrightness minb maxb (decodeBrightness minb maxb d) ∧
      encodeBrightness minb maxb (decodeBrightness minb maxb d) ≤ d + 1) ∧
    (∀ v : Int, 1 ≤ v → v ≤ 255 → 254 ≤ maxb - minb →
      v ≤ decodeBrightness minb maxb (encodeBrightness minb maxb v) ∧
      decodeBrightness minb maxb (encodeBrightness minb maxb v) ≤ v + 1) := by
  have hΔ : 0 < maxb - minb := by omega
  constructor
  · intro d _ _ hspan
    rw [decodeBrightness_shape]
    set m : Int := ⌈(((d - minb) * 254 : ℤ) : ℚ) / ((maxb - minb : ℤ) : ℚ)⌉ with hm
    rw [encodeBrightness_shape]
    rw [show (m + 1 - 1) * (maxb - minb) = m * (maxb - minb) from by ring]
    rw [show ((m * (maxb - minb) : ℤ) : ℚ)
        = ((m : ℤ) : ℚ) * ((maxb - minb : ℤ) : ℚ) from by push_cast; ring]
    have H := ceil_div_roundtrip 254 (maxb - minb) (d - minb) (by norm_num) hΔ hspan
    rw [← hm] at H
    obtain ⟨H1, H2⟩ := H
    omega
  · intro v _ _ hspan
    rw [encodeBrightness_shape]
    set m : Int := ⌈(((v - 1) * (maxb - minb) : ℤ) : ℚ) / ((254 : ℤ) : ℚ)⌉ with hm
    rw [decodeBrightness_shape]
    rw [show (m + minb - minb) * 254 = m * 254 from by ring]
    rw [show ((m * 254 : ℤ) : ℚ) = ((m : ℤ) : ℚ) * ((254 : ℤ) : ℚ) from by push_cast; ring]
    have H := ceil_div_roundtrip (maxb - minb) 254 (v - 1) hΔ (by norm_num) hspan
    rw [← hm] at H
    obtain ⟨H1, H2⟩ := H
    omega

/-- Witness for the amended C1 at bounds 0 and 254 (span exactly 254, so
both directions apply), device value 100 and host value 7. -/
theorem c1_brightness_roundtrip_amended_witness :
    (0 : Int) < 254 ∧
    ((100 : Int) ≤ encodeBrightness 0 254 (decodeBrightness 0 254 100) ∧
      encodeBrightness 0 254 (decodeBrightness 0 254 100) ≤ 101) ∧
    ((7 : Int) ≤ decodeBrightness 0 254 (encodeBrightness 0 254 7) ∧
      decodeBrightness 0 254 (encodeBrightness 0 254 7) ≤ 8) := by
  refine ⟨by norm_num, ?_, ?_⟩
  · exact (c1_brightness_roundtrip_amended 0 254 (by norm_num)).1 100
      (by norm_num) (by norm_num) (by norm_num)
  · exact (c1_brightness_roundtrip_amended 0 254 (by norm_num)).2 7
      (by norm_num) (by norm_num) (by norm_num)

/-- C2 (code bug): the platform schema imposes no relation between
`min_brightness` and `max_brightness`, so a configuration with equal bounds
is ACCEPTED, and reading the `brightness` property under that accepted
configuration reaches the division and raises `ZeroDivisionError` at
runtime instead of failing validation at startup. -/
theorem c2_schema_accepts_equal_bounds :
    PLATFORM_SCHEMA
        { name := some "light", host := some "host", token := some "token",
          scan_interval := Option.none, min_brightness := some 100,
          max_brightness := some 100, min_color_temperature := Option.none,
          max_color_temperature := Option.none }
      = some { name := "light", host := "host", token := "token",
               scan_interval := 10, min_brightness := 100, max_brightness := 100,
               min_color_temperature := 3000, max_color_temperature := 5700 } ∧
    OppleLight.brightness
        { initialLight
            { name := "light", host := "host", token := "token",
              scan_interval := 10, min_brightness := 100, max_brightness := 100,
              min_color_temperature := 3000, max_color_temperature := 5700 } with
          _brightness := PyVal.int 50 }
      = Except.error PyError.zeroDivisionError :=
  ⟨rfl, rfl⟩

